import Mathlib

/-!
Verification of the golf-jobs upgrade server (Express + Stripe shim).

The development shallowly embeds the request handlers of the repository:
the credit-checkout endpoint (`POST /checkout/credit`), the price cache
(`getCachedPrices` with its single-flight loader), checkout-session
creation (`GET /checkout`, `POST /create-checkout-session`) and the
uncached `GET /prices` endpoint.  External SDK calls are modelled by
oracles (total functions or `Except`-valued functions for calls that can
reject); `JSON` truthiness of optional strings is modelled explicitly.
-/

namespace GolfJobs

/-! ### Configuration parsing helpers -/

/-- Models `(env || "").split(",").map(s => s.trim()).filter(Boolean)`:
comma-separated environment lists never contain the empty string. -/
def parseEnvList (s : String) : List String :=
  ((s.splitOn ",").map String.trim).filter (fun t => t ≠ "")

/-- JS truthiness of an optional string: `undefined` and `""` are falsy. -/
def truthy : Option String → Bool
  | none => false
  | some s => s ≠ ""

/-- Models `x || d` for an optional string `x`: falsy values fall back to `d`. -/
def orFalsy (o : Option String) (d : String) : String :=
  match o with
  | some s => if s = "" then d else s
  | none => d

theorem parseEnvList_not_empty_mem (s : String) : "" ∉ parseEnvList s := by
  intro h
  simp only [parseEnvList, List.mem_filter, decide_eq_true_eq] at h
  exact h.2 rfl

/-! ### Credit computation (`POST /checkout/credit`, server.js lines 240-279)

A line item's `price.product` is either a plain id string, an expanded
product object (whose `id` may itself be missing or empty), or absent.
The handler resolves it exactly as the JS does:
`typeof p === 'string' ? p : (p && p.id ? p.id : undefined)`. -/

inductive ProductField where
  | pstr (id : String)
  | pobj (id : Option String)
  | pnull
deriving DecidableEq, Repr

/-- The `productId` local variable of the credit loop: `undefined` is `none`.
An object id that is the empty string is falsy in JS and stays unresolved. -/
def ProductField.resolvedId : ProductField → Option String
  | .pstr id => some id
  | .pobj (some id) => if id = "" then none else some id
  | .pobj none => none
  | .pnull => none

structure LineItem where
  product : ProductField
  amount_total : Nat
deriving DecidableEq, Repr

structure StripeSession where
  payment_status : String
  lineItems : List LineItem
deriving DecidableEq, Repr

/-- The guard `if (productId && SINGLE_UPGRADE_PRODUCT_IDS.includes(productId))`. -/
def countsForCredit (singles : List String) (it : LineItem) : Bool :=
  match it.product.resolvedId with
  | some p => decide (p ≠ "") && decide (p ∈ singles)
  | none => false

/-- Inner loop body: `totalCredit += item.amount_total` when creditable. -/
def addItemCredit (singles : List String) (acc : Nat) (it : LineItem) : Nat :=
  if countsForCredit singles it then acc + it.amount_total else acc

/-- One paid session's contribution, accumulated over its line items. -/
def addSessionCredit (singles : List String) (acc : Nat) (s : StripeSession) : Nat :=
  s.lineItems.foldl (addItemCredit singles) acc

/-- The accumulated `totalCredit` before capping: the nested `for` loops over
`paidSessions = sessions.data.filter(s => s.payment_status === 'paid')`. -/
def rawCreditOf (singles : List String) (sessions : List StripeSession) : Nat :=
  (sessions.filter (fun s => s.payment_status = "paid")).foldl (addSessionCredit singles) 0

/-- The cap: `totalCredit = Math.min(totalCredit, 14900)`. -/
def CREDIT_CAP : Nat := 14900

def cappedCreditOf (singles : List String) (sessions : List StripeSession) : Nat :=
  min (rawCreditOf singles sessions) CREDIT_CAP

/-- Declarative qualification: the line item's resolved product identifier is
one of the configured single-upgrade product ids. -/
def specQualifies (singles : List String) (it : LineItem) : Bool :=
  match it.product.resolvedId with
  | some p => decide (p ∈ singles)
  | none => false

theorem foldl_addItemCredit (singles : List String) (its : List LineItem) (acc : Nat) :
    its.foldl (addItemCredit singles) acc =
      acc + ((its.filter (countsForCredit singles)).map LineItem.amount_total).sum := by
  induction its generalizing acc with
  | nil => simp
  | cons it rest ih =>
    by_cases h : countsForCredit singles it
    · simp [addItemCredit, h, ih, Nat.add_assoc]
    · simp [addItemCredit, h, ih]

theorem foldl_addSessionCredit (singles : List String) (l : List StripeSession) (acc : Nat) :
    l.foldl (addSessionCredit singles) acc =
      acc + (l.map (fun s =>
        ((s.lineItems.filter (countsForCredit singles)).map LineItem.amount_total).sum)).sum := by
  induction l generalizing acc with
  | nil => simp
  | cons s rest ih =>
    simp [addSessionCredit, foldl_addItemCredit, ih, Nat.add_assoc]

theorem countsForCredit_eq_specQualifies (singles : List String) (hs : "" ∉ singles)
    (it : LineItem) : countsForCredit singles it = specQualifies singles it := by
  unfold countsForCredit specQualifies
  cases h : it.product.resolvedId with
  | none => rfl
  | some p =>
    by_cases hp : p ∈ singles
    · have : p ≠ "" := fun he => hs (he ▸ hp)
      simp [hp, this]
    · simp [hp]

/-- C1: the computed credit of `POST /checkout/credit` equals the sum of
`amount_total` over all line items of the customer's checkout sessions whose
`payment_status` is `'paid'` and whose product identifier is one of the
configured `SINGLE_UPGRADE_PRODUCT_IDS`, capped at 14900 pence. -/
theorem credit_is_capped_qualifying_sum (singles : List String)
    (sessions : List StripeSession) (hs : "" ∉ singles) :
    cappedCreditOf singles sessions =
      min (((sessions.filter (fun s => s.payment_status = "paid")).map
        (fun s => ((s.lineItems.filter (specQualifies singles)).map
          LineItem.amount_total).sum)).sum) 14900 := by
  unfold cappedCreditOf rawCreditOf CREDIT_CAP
  rw [foldl_addSessionCredit]
  simp only [Nat.zero_add]
  have hf : countsForCredit singles = specQualifies singles :=
    funext (countsForCredit_eq_specQualifies singles hs)
  rw [hf]

/-- C1 witness: a concrete customer history with one paid creditable item,
one unpaid session and one paid item of a foreign product. -/
theorem credit_is_capped_qualifying_sum_check :
    "" ∉ ["prod_a", "prod_b"] ∧
    cappedCreditOf ["prod_a", "prod_b"]
      [⟨"paid", [⟨.pstr "prod_a", 4900⟩, ⟨.pstr "prod_z", 1000⟩]⟩,
       ⟨"unpaid", [⟨.pstr "prod_a", 4900⟩]⟩,
       ⟨"paid", [⟨.pobj (some "prod_b"), 20000⟩]⟩] =
      min ((([⟨"paid", [⟨.pstr "prod_a", 4900⟩, ⟨.pstr "prod_z", 1000⟩]⟩,
       ⟨"unpaid", [⟨.pstr "prod_a", 4900⟩]⟩,
       ⟨"paid", [⟨.pobj (some "prod_b"), 20000⟩]⟩] :
         List StripeSession).filter (fun s => s.payment_status = "paid")).map
        (fun s => ((s.lineItems.filter (specQualifies ["prod_a", "prod_b"])).map
          LineItem.amount_total).sum)).sum 14900 :=
  ⟨by decide, credit_is_capped_qualifying_sum _ _ (by decide)⟩

/-! ### Stripe SDK modelling shared by the checkout handlers

Creation calls are modelled by oracles returning `Except`: a rejected
promise carries a failure with the `error.type` the catch blocks dispatch
on.  The parameters each handler passes to `stripe.checkout.sessions.create`
are recorded as effects. -/

inductive StripeErrKind where
  | invalidRequest
  | cardError
  | other
deriving DecidableEq, Repr

structure StripeFailure where
  kind : StripeErrKind
  message : String
deriving DecidableEq, Repr

structure Session where
  id : String
  url : String
deriving DecidableEq, Repr

structure SessionParams where
  line_items : List (String × Nat)
  mode : String
  success_url : String
  cancel_url : String
  customer : Option String
  discounts : List String
  allow_promotion_codes : Bool
deriving DecidableEq, Repr

structure CouponParams where
  amount_off : Nat
  currency : String
  duration : String
  name : String
deriving DecidableEq, Repr

structure PromoParams where
  couponId : String
  max_redemptions : Nat
  customer : String
deriving DecidableEq, Repr

/-! ### The `POST /checkout/credit` handler (server.js lines 196-393) -/

structure CreditConfig where
  stripeConfigured : Bool
  bundlePriceId : Option String
  singles : List String
  successUrl : String
  cancelUrl : String

/-- The provider-side data the handler reads: the (at most one) customer
returned by `customers.list({email, limit: 1})`, the id a `customers.create`
would mint, and the customer's checkout sessions with their line items. -/
structure CreditWorld where
  existingCustomers : List String
  newCustomerId : String
  sessions : List StripeSession

structure CreditBody where
  email : Option String
  jobId : Option String

inductive CreditResp where
  | err (status : Nat) (msg : String)
  | covered (message redirectUrl : String)
  | checkout (url : String) (credit balance : Nat)
deriving DecidableEq, Repr

structure CreditEffects where
  ops : List String
  createdCustomers : List String
  createdCoupons : List CouponParams
  createdPromos : List PromoParams
  createdSessions : List SessionParams
deriving DecidableEq, Repr

def noCreditEffects : CreditEffects := ⟨[], [], [], [], []⟩

/-- `let customer` of the handler: the first listed customer, else the one
`customers.create` mints. -/
def customerIdOf (w : CreditWorld) : String :=
  match w.existingCustomers with
  | c :: _ => c
  | [] => w.newCustomerId

def createdCustomersOf (w : CreditWorld) : List String :=
  match w.existingCustomers with
  | _ :: _ => []
  | [] => [w.newCustomerId]

/-- The catch block of the handler (server.js lines 372-391): dispatch on
`error.type`. -/
def creditCatch (f : StripeFailure) : CreditResp :=
  match f.kind with
  | .cardError => .err 400 "Payment method issue"
  | .invalidRequest => .err 400 "Invalid request to Stripe"
  | .other => .err 500 "Unable to create checkout session"

/-- SDK calls performed while reading the payment history:
`customers.list` (plus `customers.create` for an unknown email),
`checkout.sessions.list`, and one `listLineItems` per paid session. -/
def creditListOps (w : CreditWorld) : List String :=
  (match w.existingCustomers with
   | _ :: _ => ["customers.list"]
   | [] => ["customers.list", "customers.create"]) ++
  ["checkout.sessions.list"] ++
  (w.sessions.filter (fun s => s.payment_status = "paid")).map
    (fun _ => "checkout.sessions.listLineItems")

/-- The `stripe.coupons.create` arguments: one-time coupon whose
`amount_off` is the capped credit. -/
def creditCouponParams (cfg : CreditConfig) (w : CreditWorld) (body : CreditBody) :
    CouponParams :=
  { amount_off := cappedCreditOf cfg.singles w.sessions, currency := "gbp",
    duration := "once", name := "Bundle credit for " ++ body.email.getD "" }

/-- The `stripe.promotionCodes.create` arguments: one redemption, bound to
the customer. -/
def creditPromoParams (w : CreditWorld) (couponId : String) : PromoParams :=
  { couponId := couponId, max_redemptions := 1, customer := customerIdOf w }

/-- The `sessionConfig` of the handler: one bundle line item bound to the
customer; `discounts` carries the minted promotion code when one exists. -/
def creditSessionParams (cfg : CreditConfig) (w : CreditWorld) (discounts : List String) :
    SessionParams :=
  { line_items := [(cfg.bundlePriceId.getD "", 1)],
    mode := "payment",
    success_url := cfg.successUrl ++ "?session_id={CHECKOUT_SESSION_ID}",
    cancel_url := cfg.cancelUrl,
    customer := some (customerIdOf w),
    discounts := discounts,
    allow_promotion_codes := false }

/-- Tail of the handler: call `stripe.checkout.sessions.create` on the
assembled `sessionConfig` and serialize the outcome. -/
def creditFinish (cfg : CreditConfig) (w : CreditWorld)
    (sessionCreate : SessionParams → Except StripeFailure Session)
    (totalCredit : Nat) (discounts : List String) (doneOps : List String)
    (coupons : List CouponParams) (promos : List PromoParams) :
    CreditResp × CreditEffects :=
  match sessionCreate (creditSessionParams cfg w discounts) with
  | .ok sess =>
    (.checkout sess.url totalCredit (CREDIT_CAP - totalCredit),
     { ops := doneOps ++ ["checkout.sessions.create"],
       createdCustomers := createdCustomersOf w,
       createdCoupons := coupons, createdPromos := promos,
       createdSessions := [creditSessionParams cfg w discounts] })
  | .error f =>
    (creditCatch f,
     { ops := doneOps ++ ["checkout.sessions.create"],
       createdCustomers := createdCustomersOf w,
       createdCoupons := coupons, createdPromos := promos,
       createdSessions := [] })

/-- Post-validation body of `POST /checkout/credit`: find-or-create
customer, credit computation over paid sessions, the `alreadyCovered`
short-circuit, optional coupon/promotion-code minting, session creation. -/
def creditMain (cfg : CreditConfig) (w : CreditWorld)
    (couponCreate : CouponParams → Except StripeFailure String)
    (promoCreate : PromoParams → Except StripeFailure String)
    (sessionCreate : SessionParams → Except StripeFailure Session)
    (body : CreditBody) : CreditResp × CreditEffects :=
    let totalCredit := cappedCreditOf cfg.singles w.sessions
    if CREDIT_CAP ≤ totalCredit then
      (.covered "You already have the Max Visibility Upgrade!" cfg.successUrl,
       { ops := creditListOps w, createdCustomers := createdCustomersOf w,
         createdCoupons := [], createdPromos := [], createdSessions := [] })
    else if 0 < totalCredit then
      match couponCreate (creditCouponParams cfg w body) with
      | .error f =>
        (creditCatch f,
         { ops := creditListOps w ++ ["coupons.create"],
           createdCustomers := createdCustomersOf w,
           createdCoupons := [], createdPromos := [], createdSessions := [] })
      | .ok couponId =>
        match promoCreate (creditPromoParams w couponId) with
        | .error f =>
          (creditCatch f,
           { ops := creditListOps w ++ ["coupons.create", "promotionCodes.create"],
             createdCustomers := createdCustomersOf w,
             createdCoupons := [creditCouponParams cfg w body], createdPromos := [],
             createdSessions := [] })
        | .ok promoId =>
          creditFinish cfg w sessionCreate totalCredit [promoId]
            (creditListOps w ++ ["coupons.create", "promotionCodes.create"])
            [creditCouponParams cfg w body] [creditPromoParams w couponId]
    else
      creditFinish cfg w sessionCreate totalCredit [] (creditListOps w) [] []

/-- The `POST /checkout/credit` handler: input validation and configuration
checks in source order, then the credit/minting/session logic. -/
def checkoutCredit (cfg : CreditConfig) (w : CreditWorld)
    (couponCreate : CouponParams → Except StripeFailure String)
    (promoCreate : PromoParams → Except StripeFailure String)
    (sessionCreate : SessionParams → Except StripeFailure Session)
    (body : CreditBody) : CreditResp × CreditEffects :=
  if !truthy body.email then
    (.err 400 "Email is required", noCreditEffects)
  else if !cfg.stripeConfigured then
    (.err 500 "Server missing STRIPE_SECRET_KEY", noCreditEffects)
  else if !truthy cfg.bundlePriceId then
    (.err 500 "Bundle product not configured", noCreditEffects)
  else if cfg.singles.isEmpty then
    (.err 500 "Single upgrade products not configured", noCreditEffects)
  else
    creditMain cfg w couponCreate promoCreate sessionCreate body

/-- C8: whenever the capped credit reaches the cap of 14900 pence, the
`POST /checkout/credit` handler responds `alreadyCovered: true` with the
configured `SUCCESS_URL`, and creates no coupon, no promotion code and no
checkout session. -/
theorem covered_at_cap (cfg : CreditConfig) (w : CreditWorld)
    (couponCreate : CouponParams → Except StripeFailure String)
    (promoCreate : PromoParams → Except StripeFailure String)
    (sessionCreate : SessionParams → Except StripeFailure Session)
    (body : CreditBody)
    (hemail : truthy body.email = true)
    (hstripe : cfg.stripeConfigured = true)
    (hbundle : truthy cfg.bundlePriceId = true)
    (hsingles : cfg.singles ≠ [])
    (hcap : cappedCreditOf cfg.singles w.sessions = 14900) :
    (checkoutCredit cfg w couponCreate promoCreate sessionCreate body).1 =
      .covered "You already have the Max Visibility Upgrade!" cfg.successUrl ∧
    (checkoutCredit cfg w couponCreate promoCreate sessionCreate body).2.createdCoupons = [] ∧
    (checkoutCredit cfg w couponCreate promoCreate sessionCreate body).2.createdPromos = [] ∧
    (checkoutCredit cfg w couponCreate promoCreate sessionCreate body).2.createdSessions = [] := by
  unfold checkoutCredit creditMain
  simp [hemail, hstripe, hbundle, List.isEmpty_iff, hsingles, hcap, CREDIT_CAP]

/-- C8 witness: a customer whose single paid session already sums past the
cap is sent to the success URL with nothing created. -/
theorem covered_at_cap_check :
    truthy (some "a@b.c") = true ∧
    truthy (some "price_bundle") = true ∧
    (["prod_a"] : List String) ≠ [] ∧
    cappedCreditOf ["prod_a"] [⟨"paid", [⟨.pstr "prod_a", 20000⟩]⟩] = 14900 ∧
    (checkoutCredit ⟨true, some "price_bundle", ["prod_a"], "https://s", "https://c"⟩
      ⟨["cus_1"], "cus_new", [⟨"paid", [⟨.pstr "prod_a", 20000⟩]⟩]⟩
      (fun _ => .ok "coup_1") (fun _ => .ok "promo_1")
      (fun _ => .ok ⟨"sess_1", "https://u"⟩)
      ⟨some "a@b.c", none⟩).1 =
        .covered "You already have the Max Visibility Upgrade!" "https://s" :=
  ⟨by decide, by decide, by decide, by decide,
    (covered_at_cap _ _ _ _ _ _ (by decide) (by decide) (by decide) (by decide)
      (by decide)).1⟩

/-- C9: every successful non-alreadyCovered response of
`POST /checkout/credit` satisfies `credit + balance = 14900` with
`0 <= credit < 14900` and `0 < balance <= 14900`, in exact integer pence. -/
theorem checkout_resp_arith (cfg : CreditConfig) (w : CreditWorld)
    (couponCreate : CouponParams → Except StripeFailure String)
    (promoCreate : PromoParams → Except StripeFailure String)
    (sessionCreate : SessionParams → Except StripeFailure Session)
    (body : CreditBody) (url : String) (c b : Nat)
    (h : (checkoutCredit cfg w couponCreate promoCreate sessionCreate body).1 =
      .checkout url c b) :
    c + b = 14900 ∧ c < 14900 ∧ 0 < b ∧ b ≤ 14900 := by
  have hcap : cappedCreditOf cfg.singles w.sessions ≤ 14900 :=
    Nat.min_le_right _ _
  unfold checkoutCredit creditMain creditFinish creditCatch at h
  dsimp only at h
  repeat' split at h
  all_goals simp at h
  all_goals
    obtain ⟨-, hc, hb⟩ := h
    simp only [CREDIT_CAP] at *
    omega

/-- C9 witness: a customer with 5000 pence of credit gets a checkout
response with credit 5000 and balance 9900. -/
theorem checkout_resp_arith_check :
    (checkoutCredit ⟨true, some "price_bundle", ["prod_a"], "https://s", "https://c"⟩
      ⟨["cus_1"], "cus_new", [⟨"paid", [⟨.pstr "prod_a", 5000⟩]⟩]⟩
      (fun _ => .ok "coup_1") (fun _ => .ok "promo_1")
      (fun _ => .ok ⟨"sess_1", "https://u"⟩)
      ⟨some "a@b.c", none⟩).1 = .checkout "https://u" 5000 9900 ∧
    5000 + 9900 = 14900 ∧ 5000 < 14900 ∧ 0 < 9900 ∧ 9900 ≤ 14900 :=
  ⟨by decide,
    checkout_resp_arith ⟨true, some "price_bundle", ["prod_a"], "https://s", "https://c"⟩
      ⟨["cus_1"], "cus_new", [⟨"paid", [⟨.pstr "prod_a", 5000⟩]⟩]⟩
      (fun _ => .ok "coup_1") (fun _ => .ok "promo_1")
      (fun _ => .ok ⟨"sess_1", "https://u"⟩)
      ⟨some "a@b.c", none⟩ "https://u" 5000 9900 (by decide)⟩

theorem checkoutCredit_validated (cfg : CreditConfig) (w : CreditWorld)
    (couponCreate : CouponParams → Except StripeFailure String)
    (promoCreate : PromoParams → Except StripeFailure String)
    (sessionCreate : SessionParams → Except StripeFailure Session)
    (body : CreditBody)
    (hemail : truthy body.email = true)
    (hstripe : cfg.stripeConfigured = true)
    (hbundle : truthy cfg.bundlePriceId = true)
    (hlist : cfg.singles.isEmpty = false) :
    checkoutCredit cfg w couponCreate promoCreate sessionCreate body =
      creditMain cfg w couponCreate promoCreate sessionCreate body := by
  unfold checkoutCredit
  simp [hemail, hstripe, hbundle, hlist]

theorem creditMain_covered (cfg : CreditConfig) (w : CreditWorld)
    (couponCreate : CouponParams → Except StripeFailure String)
    (promoCreate : PromoParams → Except StripeFailure String)
    (sessionCreate : SessionParams → Except StripeFailure Session)
    (body : CreditBody)
    (hge : CREDIT_CAP ≤ cappedCreditOf cfg.singles w.sessions) :
    creditMain cfg w couponCreate promoCreate sessionCreate body =
      (.covered "You already have the Max Visibility Upgrade!" cfg.successUrl,
       { ops := creditListOps w, createdCustomers := createdCustomersOf w,
         createdCoupons := [], createdPromos := [], createdSessions := [] }) := by
  unfold creditMain
  dsimp only
  rw [if_pos hge]

theorem creditMain_minted (cfg : CreditConfig) (w : CreditWorld)
    (couponCreate : CouponParams → Except StripeFailure String)
    (promoCreate : PromoParams → Except StripeFailure String)
    (sessionCreate : SessionParams → Except StripeFailure Session)
    (body : CreditBody) (cid promoId : String) (sess : Session)
    (h0 : 0 < cappedCreditOf cfg.singles w.sessions)
    (hlt : cappedCreditOf cfg.singles w.sessions < CREDIT_CAP)
    (hc : couponCreate (creditCouponParams cfg w body) = Except.ok cid)
    (hp : promoCreate (creditPromoParams w cid) = Except.ok promoId)
    (hs : sessionCreate (creditSessionParams cfg w [promoId]) = Except.ok sess) :
    creditMain cfg w couponCreate promoCreate sessionCreate body =
      (.checkout sess.url (cappedCreditOf cfg.singles w.sessions)
         (CREDIT_CAP - cappedCreditOf cfg.singles w.sessions),
       { ops := creditListOps w ++ ["coupons.create", "promotionCodes.create"] ++
           ["checkout.sessions.create"],
         createdCustomers := createdCustomersOf w,
         createdCoupons := [creditCouponParams cfg w body],
         createdPromos := [creditPromoParams w cid],
         createdSessions := [creditSessionParams cfg w [promoId]] }) := by
  unfold creditMain creditFinish
  dsimp only
  rw [if_neg (Nat.not_le.mpr hlt), if_pos h0, hc]
  dsimp only
  rw [hp]
  dsimp only
  rw [hs]

theorem creditMain_zero (cfg : CreditConfig) (w : CreditWorld)
    (couponCreate : CouponParams → Except StripeFailure String)
    (promoCreate : PromoParams → Except StripeFailure String)
    (sessionCreate : SessionParams → Except StripeFailure Session)
    (body : CreditBody) (sess : Session)
    (hz : cappedCreditOf cfg.singles w.sessions = 0)
    (hs : sessionCreate (creditSessionParams cfg w []) = Except.ok sess) :
    creditMain cfg w couponCreate promoCreate sessionCreate body =
      (.checkout sess.url (cappedCreditOf cfg.singles w.sessions)
         (CREDIT_CAP - cappedCreditOf cfg.singles w.sessions),
       { ops := creditListOps w ++ ["checkout.sessions.create"],
         createdCustomers := createdCustomersOf w,
         createdCoupons := [], createdPromos := [],
         createdSessions := [creditSessionParams cfg w []] }) := by
  unfold creditMain creditFinish
  dsimp only
  rw [if_neg (by rw [hz]; decide), if_neg (by rw [hz]; decide), hs]

/-- C2: in `POST /checkout/credit` a coupon and promotion code are minted
iff the capped credit is strictly positive and strictly below 14900; the
minted coupon is one-time (`amount_off` equal to the capped credit,
duration `'once'`), the promotion code has `max_redemptions` 1 and is
bound to the customer, and the created checkout session carries that
promotion code as its only discount. -/
theorem coupon_minting (cfg : CreditConfig) (w : CreditWorld)
    (couponCreate : CouponParams → Except StripeFailure String)
    (promoCreate : PromoParams → Except StripeFailure String)
    (sessionCreate : SessionParams → Except StripeFailure Session)
    (body : CreditBody)
    (hemail : truthy body.email = true)
    (hstripe : cfg.stripeConfigured = true)
    (hbundle : truthy cfg.bundlePriceId = true)
    (hsingles : cfg.singles ≠ [])
    (hco : ∀ p, ∃ r, couponCreate p = Except.ok r)
    (hpr : ∀ p, ∃ r, promoCreate p = Except.ok r)
    (hse : ∀ p, ∃ r, sessionCreate p = Except.ok r) :
    (((checkoutCredit cfg w couponCreate promoCreate sessionCreate body).2.createdCoupons ≠ [] ∨
      (checkoutCredit cfg w couponCreate promoCreate sessionCreate body).2.createdPromos ≠ []) ↔
      (0 < cappedCreditOf cfg.singles w.sessions ∧
        cappedCreditOf cfg.singles w.sessions < 14900)) ∧
    (0 < cappedCreditOf cfg.singles w.sessions →
      cappedCreditOf cfg.singles w.sessions < 14900 →
      ∃ cid promoId,
        couponCreate { amount_off := cappedCreditOf cfg.singles w.sessions,
                       currency := "gbp", duration := "once",
                       name := "Bundle credit for " ++ body.email.getD "" } =
          Except.ok cid ∧
        promoCreate { couponId := cid, max_redemptions := 1,
                      customer := customerIdOf w } = Except.ok promoId ∧
        (checkoutCredit cfg w couponCreate promoCreate sessionCreate body).2.createdCoupons =
          [{ amount_off := cappedCreditOf cfg.singles w.sessions, currency := "gbp",
             duration := "once", name := "Bundle credit for " ++ body.email.getD "" }] ∧
        (checkoutCredit cfg w couponCreate promoCreate sessionCreate body).2.createdPromos =
          [{ couponId := cid, max_redemptions := 1, customer := customerIdOf w }] ∧
        ∃ params,
          (checkoutCredit cfg w couponCreate promoCreate sessionCreate body).2.createdSessions =
            [params] ∧ params.discounts = [promoId]) := by
  have hlist : cfg.singles.isEmpty = false := by
    cases hcs : cfg.singles with
    | nil => exact absurd hcs hsingles
    | cons a l => rfl
  rw [checkoutCredit_validated cfg w couponCreate promoCreate sessionCreate body
    hemail hstripe hbundle hlist]
  by_cases hge : CREDIT_CAP ≤ cappedCreditOf cfg.singles w.sessions
  · rw [creditMain_covered cfg w couponCreate promoCreate sessionCreate body hge]
    refine ⟨⟨fun h => ?_, fun h => ?_⟩, fun h1 h2 => ?_⟩
    · rcases h with h | h <;> simp at h
    · exact absurd h.2 (by simp only [CREDIT_CAP] at hge; omega)
    · exact absurd h2 (by simp only [CREDIT_CAP] at hge; omega)
  · have hlt : cappedCreditOf cfg.singles w.sessions < CREDIT_CAP := Nat.not_le.mp hge
    by_cases h0 : 0 < cappedCreditOf cfg.singles w.sessions
    · obtain ⟨cid, hc⟩ := hco (creditCouponParams cfg w body)
      obtain ⟨promoId, hp⟩ := hpr (creditPromoParams w cid)
      obtain ⟨sess, hs⟩ := hse (creditSessionParams cfg w [promoId])
      rw [creditMain_minted cfg w couponCreate promoCreate sessionCreate body
        cid promoId sess h0 hlt hc hp hs]
      refine ⟨⟨fun _ => ⟨h0, by simp only [CREDIT_CAP] at hlt; omega⟩,
        fun _ => Or.inl (by simp)⟩, fun _ _ => ?_⟩
      exact ⟨cid, promoId, hc, hp, by simp [creditCouponParams],
        by simp [creditPromoParams],
        ⟨creditSessionParams cfg w [promoId], by simp, rfl⟩⟩
    · have hz : cappedCreditOf cfg.singles w.sessions = 0 := by omega
      obtain ⟨sess, hs⟩ := hse (creditSessionParams cfg w [])
      rw [creditMain_zero cfg w couponCreate promoCreate sessionCreate body sess hz hs]
      refine ⟨⟨fun h => ?_, fun h => absurd h.1 (by omega)⟩,
        fun h1 _ => absurd h1 (by omega)⟩
      rcases h with h | h <;> simp at h

/-- C2 witness: a customer with 5000 pence of credit gets a one-time
5000-pence coupon, a single-redemption promotion code bound to them, and a
session discounted by exactly that code. -/
theorem coupon_minting_check :
    truthy (some "a@b.c") = true ∧
    truthy (some "price_bundle") = true ∧
    (["prod_a"] : List String) ≠ [] ∧
    (((checkoutCredit ⟨true, some "price_bundle", ["prod_a"], "https://s", "https://c"⟩
        ⟨["cus_1"], "cus_new", [⟨"paid", [⟨.pstr "prod_a", 5000⟩]⟩]⟩
        (fun _ => .ok "coup_1") (fun _ => .ok "promo_1")
        (fun _ => .ok ⟨"sess_1", "https://u"⟩)
        ⟨some "a@b.c", none⟩).2.createdCoupons ≠ [] ∨
      (checkoutCredit ⟨true, some "price_bundle", ["prod_a"], "https://s", "https://c"⟩
        ⟨["cus_1"], "cus_new", [⟨"paid", [⟨.pstr "prod_a", 5000⟩]⟩]⟩
        (fun _ => .ok "coup_1") (fun _ => .ok "promo_1")
        (fun _ => .ok ⟨"sess_1", "https://u"⟩)
        ⟨some "a@b.c", none⟩).2.createdPromos ≠ []) ↔
      (0 < cappedCreditOf ["prod_a"] [⟨"paid", [⟨.pstr "prod_a", 5000⟩]⟩] ∧
        cappedCreditOf ["prod_a"] [⟨"paid", [⟨.pstr "prod_a", 5000⟩]⟩] < 14900)) :=
  ⟨by decide, by decide, by decide,
    (coupon_minting ⟨true, some "price_bundle", ["prod_a"], "https://s", "https://c"⟩
      ⟨["cus_1"], "cus_new", [⟨"paid", [⟨.pstr "prod_a", 5000⟩]⟩]⟩
      (fun _ => .ok "coup_1") (fun _ => .ok "promo_1")
      (fun _ => .ok ⟨"sess_1", "https://u"⟩)
      ⟨some "a@b.c", none⟩ (by decide) (by decide) (by decide) (by decide)
      (fun p => ⟨"coup_1", rfl⟩) (fun p => ⟨"promo_1", rfl⟩)
      (fun p => ⟨⟨"sess_1", "https://u"⟩, rfl⟩)).1⟩

/-! ### The price cache (`getCachedPrices`, 5-minute TTL, single-flight)

`PRICE_CACHE = { data, ts, loading }` is modelled as a state; the per-product
upstream lookup (`getLatestOneTimePrice`) is an oracle `String → PriceInfo`.
An in-flight load is recorded in `loading` together with the oracle it was
started with, and `inFlight` counts loads that have started but not
completed.  `time` is the last observed `Date.now()`; reachability only
allows steps at non-decreasing times. -/

structure PriceInfo where
  unit_amount : Int
  currency : String
  price_id : String
deriving DecidableEq, Repr

def PRICE_TTL_MS : Nat := 5 * 60 * 1000

structure PriceCacheState where
  data : Option (List (String × PriceInfo))
  ts : Nat
  loading : Option (String → PriceInfo)

structure CacheSystem where
  cache : PriceCacheState
  inFlight : Nat
  time : Nat

def initCache : CacheSystem := ⟨⟨none, 0, none⟩, 0, 0⟩

/-- `fetchAllPrices`: one lookup per configured product id, keyed by it. -/
def fetchAllPrices (productIds : List String) (o : String → PriceInfo) :
    List (String × PriceInfo) :=
  productIds.map (fun pid => (pid, o pid))

/-- `PRICE_CACHE.data && (Date.now() - PRICE_CACHE.ts < PRICE_TTL_MS)`. -/
def isFresh (c : PriceCacheState) (now : Nat) : Bool :=
  c.data.isSome && decide (now - c.ts < PRICE_TTL_MS)

/-- The synchronous part of one `getCachedPrices()` call: fresh data and an
in-flight load leave the cache alone; otherwise a load starts. -/
def stepCall (s : CacheSystem) (now : Nat) (o : String → PriceInfo) : CacheSystem :=
  if isFresh s.cache now then { s with time := now }
  else
    match s.cache.loading with
    | some _ => { s with time := now }
    | none =>
      { cache := { data := s.cache.data, ts := s.cache.ts, loading := some o },
        inFlight := s.inFlight + 1, time := now }

/-- Completion of the in-flight load:
`PRICE_CACHE = { data, ts: Date.now(), loading: null }`. -/
def stepComplete (productIds : List String) (s : CacheSystem) (now : Nat) : CacheSystem :=
  match s.cache.loading with
  | some o =>
    { cache := { data := some (fetchAllPrices productIds o), ts := now, loading := none },
      inFlight := s.inFlight - 1, time := now }
  | none => s

/-- The value the awaited `getCachedPrices()` promise resolves to: the fresh
cached map, the in-flight load's eventual result, or the newly started
load's result. -/
def callResult (productIds : List String) (s : CacheSystem) (now : Nat)
    (o : String → PriceInfo) : List (String × PriceInfo) :=
  if isFresh s.cache now then s.cache.data.getD []
  else
    match s.cache.loading with
    | some ol => fetchAllPrices productIds ol
    | none => fetchAllPrices productIds o

inductive CacheReachable (productIds : List String) : CacheSystem → Prop where
  | init : CacheReachable productIds initCache
  | call (s : CacheSystem) (now : Nat) (o : String → PriceInfo) :
      CacheReachable productIds s → s.time ≤ now →
      CacheReachable productIds (stepCall s now o)
  | complete (s : CacheSystem) (now : Nat) :
      CacheReachable productIds s → s.time ≤ now →
      CacheReachable productIds (stepComplete productIds s now)

theorem fetchAllPrices_keys (productIds : List String) (o : String → PriceInfo) :
    (fetchAllPrices productIds o).map Prod.fst = productIds := by
  induction productIds with
  | nil => rfl
  | cons a l ih =>
    simp only [fetchAllPrices, List.map_cons] at ih ⊢
    rw [ih]

/-- Staleness is stable under advancing the clock. -/
theorem isFresh_mono_false (c : PriceCacheState) (t now : Nat) (ht : t ≤ now)
    (h : isFresh c t = false) : isFresh c now = false := by
  unfold isFresh at h ⊢
  cases hd : c.data with
  | none => simp [hd]
  | some d =>
    rw [hd] at h
    simp only [Option.isSome_some, Bool.true_and, decide_eq_false_iff_not] at h ⊢
    omega

/-- Cache-system invariant: exactly one load is in flight when `loading`
is set, none otherwise, and while a load is in flight the cached data is
stale at the current clock. -/
def CacheInv (s : CacheSystem) : Prop :=
  s.inFlight = (if s.cache.loading.isSome then 1 else 0) ∧
  (∀ o, s.cache.loading = some o → isFresh s.cache s.time = false)

theorem cacheReachable_inv (productIds : List String) (s : CacheSystem)
    (h : CacheReachable productIds s) : CacheInv s := by
  induction h with
  | init => exact ⟨rfl, fun o ho => by simp [initCache] at ho⟩
  | call s now o hr hle ih =>
    obtain ⟨ih1, ih2⟩ := ih
    unfold stepCall
    by_cases hf : isFresh s.cache now = true
    · rw [if_pos hf]
      exact ⟨ih1, fun ol hol => by
        have := isFresh_mono_false s.cache s.time now hle (ih2 ol hol)
        rw [hf] at this
        exact absurd this (by simp)⟩
    · rw [if_neg hf]
      rw [Bool.not_eq_true] at hf
      cases hl : s.cache.loading with
      | some ol =>
        exact ⟨ih1, fun ol2 _ => isFresh_mono_false s.cache s.time now hle (ih2 ol hl)⟩
      | none =>
        refine ⟨?_, fun ol2 _ => ?_⟩
        · rw [ih1, hl]
          rfl
        · show isFresh ⟨s.cache.data, s.cache.ts, some o⟩ now = false
          unfold isFresh at hf ⊢
          exact hf
  | complete s now hr hle ih =>
    obtain ⟨ih1, ih2⟩ := ih
    unfold stepComplete
    cases hl : s.cache.loading with
    | some ol =>
      refine ⟨?_, fun ol2 hol2 => by simp at hol2⟩
      rw [ih1, hl]
      rfl
    | none => exact ⟨ih1, ih2⟩

/-- C4: the price cache load is single-flight: at every reachable state at
most one load is in flight, and while `PRICE_CACHE.loading` is set a
further `getCachedPrices` call leaves the cache and in-flight count
unchanged (no second upstream fetch) and returns that same in-flight
load's result. -/
theorem single_flight (productIds : List String) (s : CacheSystem)
    (h : CacheReachable productIds s) :
    s.inFlight ≤ 1 ∧
    (∀ now o ol, s.time ≤ now → s.cache.loading = some ol →
      (stepCall s now o).cache = s.cache ∧
      (stepCall s now o).inFlight = s.inFlight ∧
      callResult productIds s now o = fetchAllPrices productIds ol) := by
  obtain ⟨h1, h2⟩ := cacheReachable_inv productIds s h
  constructor
  · rw [h1]
    split <;> omega
  · intro now o ol hle hol
    have hf : isFresh s.cache now = false :=
      isFresh_mono_false s.cache s.time now hle (h2 ol hol)
    unfold stepCall callResult
    rw [hf]
    simp [hol]

/-- C4 witness: from the initial state a first stale call starts a load;
the resulting reachable state has one load in flight, and a second call
joins it, fetching nothing new. -/
theorem single_flight_check :
    CacheReachable ["p1"] (stepCall initCache 0 (fun _ => ⟨100, "gbp", "price_x"⟩)) ∧
    (stepCall initCache 0 (fun _ => ⟨100, "gbp", "price_x"⟩)).inFlight ≤ 1 ∧
    (stepCall (stepCall initCache 0 (fun _ => ⟨100, "gbp", "price_x"⟩)) 7
        (fun _ => ⟨200, "gbp", "price_y"⟩)).cache =
      (stepCall initCache 0 (fun _ => ⟨100, "gbp", "price_x"⟩)).cache ∧
    callResult ["p1"] (stepCall initCache 0 (fun _ => ⟨100, "gbp", "price_x"⟩)) 7
        (fun _ => ⟨200, "gbp", "price_y"⟩) =
      fetchAllPrices ["p1"] (fun _ => ⟨100, "gbp", "price_x"⟩) := by
  have hreach : CacheReachable ["p1"]
      (stepCall initCache 0 (fun _ => ⟨100, "gbp", "price_x"⟩)) :=
    CacheReachable.call initCache 0 _ CacheReachable.init (Nat.le_refl 0)
  have hmain := single_flight ["p1"] _ hreach
  have hj := hmain.2 7 (fun _ => ⟨200, "gbp", "price_y"⟩)
    (fun _ => ⟨100, "gbp", "price_x"⟩) (by simp [stepCall, initCache, isFresh]) rfl
  exact ⟨hreach, hmain.1, hj.1, hj.2.2⟩

/-- C3: a `getCachedPrices` call that finds data younger than the TTL
returns the cached map and starts no upstream fetch; otherwise the
returned map has exactly the configured product ids as its keys and, once
the load completes, the cache data and timestamp are replaced with that
map and the completion time. -/
theorem cache_ttl (productIds : List String) (s : CacheSystem) (now now2 : Nat)
    (o : String → PriceInfo) (d : List (String × PriceInfo)) :
    (isFresh s.cache now = true → s.cache.data = some d →
      callResult productIds s now o = d ∧
      (stepCall s now o).cache = s.cache ∧
      (stepCall s now o).inFlight = s.inFlight) ∧
    (isFresh s.cache now = false →
      (callResult productIds s now o).map Prod.fst = productIds ∧
      (stepComplete productIds (stepCall s now o) now2).cache =
        { data := some (callResult productIds s now o), ts := now2, loading := none }) := by
  constructor
  · intro hf hd
    unfold callResult stepCall
    rw [hf, hd]
    exact ⟨rfl, rfl, rfl⟩
  · intro hf
    unfold callResult stepCall stepComplete
    rw [hf]
    cases hl : s.cache.loading with
    | some ol =>
      constructor
      · exact fetchAllPrices_keys productIds ol
      · simp only [Bool.false_eq_true, if_false]
        rw [hl]
    | none =>
      constructor
      · exact fetchAllPrices_keys productIds o
      · simp only [Bool.false_eq_true, if_false]

/-- C3 witness: a fresh cache returns its data untouched; the initial
(empty) cache is stale, and a call on it returns a map keyed exactly by
the configured product ids which then replaces the cache data. -/
theorem cache_ttl_check :
    (isFresh (⟨⟨some [("p1", ⟨500, "gbp", "pr_1"⟩)], 0, none⟩, 0, 0⟩ :
        CacheSystem).cache 1 = true ∧
      callResult ["p1"] ⟨⟨some [("p1", ⟨500, "gbp", "pr_1"⟩)], 0, none⟩, 0, 0⟩ 1
        (fun _ => ⟨100, "gbp", "pr_x"⟩) = [("p1", ⟨500, "gbp", "pr_1"⟩)]) ∧
    (isFresh initCache.cache 5 = false ∧
      (callResult ["p1", "p2"] initCache 5 (fun _ => ⟨100, "gbp", "pr_x"⟩)).map
        Prod.fst = ["p1", "p2"]) := by
  refine ⟨⟨rfl, ?_⟩, ⟨rfl, ?_⟩⟩
  · exact ((cache_ttl ["p1"] ⟨⟨some [("p1", ⟨500, "gbp", "pr_1"⟩)], 0, none⟩, 0, 0⟩ 1 0
      (fun _ => ⟨100, "gbp", "pr_x"⟩) [("p1", ⟨500, "gbp", "pr_1"⟩)]).1 rfl rfl).1
  · exact ((cache_ttl ["p1", "p2"] initCache 5 0 (fun _ => ⟨100, "gbp", "pr_x"⟩) []).2
      rfl).1

/-! ### `GET /checkout` and `POST /create-checkout-session`

`pid.split(",")` of JS keeps empty segments ("".split(",") is [""]);
`splitComma` models it structurally over the character list. -/

def splitComma : List Char → List (List Char)
  | [] => [[]]
  | c :: rest =>
    if c = ',' then [] :: splitComma rest
    else
      match splitComma rest with
      | [] => [[c]]
      | g :: gs => (c :: g) :: gs

def jsSplitComma (s : String) : List String :=
  (splitComma s.toList).map (fun cs => String.mk cs)

/-- `pid.split(",").filter(Boolean)` of `GET /checkout`. -/
def parsePids (pid : String) : List String :=
  (jsSplitComma pid).filter (fun t => t ≠ "")

/-- The session parameters `GET /checkout` passes to
`stripe.checkout.sessions.create`: one quantity-1 line item per supplied
price id, in order. -/
def checkoutGetParams (priceIds : List String) (success cancel : Option String) :
    SessionParams :=
  { line_items := priceIds.map (fun q => (q, 1)),
    mode := "payment",
    success_url := orFalsy success "https://golf-jobs.com/upgrade?success=true",
    cancel_url := orFalsy cancel "https://golf-jobs.com/upgrade",
    customer := none,
    discounts := [],
    allow_promotion_codes := true }

inductive CheckoutGetResp where
  | err (status : Nat) (msg : String)
  | redirect (status : Nat) (url : String)
deriving DecidableEq, Repr

/-- The `GET /checkout` handler (server.js lines 129-193). -/
def checkoutGet (stripeConfigured : Bool) (pid success cancel : Option String)
    (create : SessionParams → Except StripeFailure Session) :
    CheckoutGetResp × List SessionParams :=
  if !stripeConfigured then (.err 500 "Server missing STRIPE_SECRET_KEY", [])
  else if !truthy pid then (.err 400 "Missing price ID parameter", [])
  else
    let priceIds := parsePids (pid.getD "")
    if priceIds.isEmpty then (.err 400 "No valid price IDs provided", [])
    else
      match create (checkoutGetParams priceIds success cancel) with
      | .ok sess => (.redirect 303 sess.url, [checkoutGetParams priceIds success cancel])
      | .error f =>
        match f.kind with
        | .invalidRequest =>
          (.err 400 "Invalid request to Stripe", [checkoutGetParams priceIds success cancel])
        | _ =>
          (.err 500 "Failed to create checkout session",
           [checkoutGetParams priceIds success cancel])

/-- `priceMap[pid]` on the object built by `Object.fromEntries`. -/
def lookupPrice (m : List (String × PriceInfo)) (pid : String) : Option PriceInfo :=
  (m.find? (fun e => e.1 == pid)).map Prod.snd

/-- The `products.map` of `POST /create-checkout-session`: `{ price:
info.price_id, quantity: 1 }` per product, throwing `Unknown product` at
the first identifier absent from the price map. -/
def buildLineItems (m : List (String × PriceInfo)) :
    List String → Except String (List (String × Nat))
  | [] => Except.ok []
  | pid :: rest =>
    match lookupPrice m pid with
    | none => Except.error ("Unknown product: " ++ pid)
    | some info =>
      match buildLineItems m rest with
      | Except.ok items => Except.ok ((info.price_id, 1) :: items)
      | Except.error e => Except.error e

inductive CreateSessResp where
  | err (status : Nat) (msg : String)
  | created (id : String)
deriving DecidableEq, Repr

/-- The session parameters `POST /create-checkout-session` passes to
`stripe.checkout.sessions.create`. -/
def createSessParams (items : List (String × Nat)) (success_url cancel_url : Option String) :
    SessionParams :=
  { line_items := items,
    mode := "payment",
    success_url := orFalsy success_url "https://golf-jobs.com/upgrade/success",
    cancel_url := orFalsy cancel_url "https://golf-jobs.com/upgrade",
    customer := none,
    discounts := [],
    allow_promotion_codes := true }

/-- The `POST /create-checkout-session` handler: empty-list validation,
`getCachedPrices`, line-item construction, session creation.  Returns the
response, the attempted `sessions.create` parameters, and the cache state
after the request (any load started by the awaited call completed). -/
def createCheckoutSession (productIds : List String) (s : CacheSystem) (now : Nat)
    (fetchO : String → PriceInfo)
    (create : SessionParams → Except StripeFailure Session)
    (products : List String) (success_url cancel_url : Option String) :
    CreateSessResp × List SessionParams × CacheSystem :=
  if products.isEmpty then (.err 400 "No products selected", [], s)
  else
    let priceMap := callResult productIds s now fetchO
    let s2 := stepComplete productIds (stepCall s now fetchO) now
    match buildLineItems priceMap products with
    | .error msg =>
      (.err 500 (if msg = "" then "Checkout create failed" else msg), [], s2)
    | .ok items =>
      match create (createSessParams items success_url cancel_url) with
      | .ok sess =>
        (.created sess.id, [createSessParams items success_url cancel_url], s2)
      | .error f =>
        (.err 500 (if f.message = "" then "Checkout create failed" else f.message),
         [createSessParams items success_url cancel_url], s2)

theorem buildLineItems_ok (m : List (String × PriceInfo)) (products : List String)
    (h : ∀ pid ∈ products, (lookupPrice m pid).isSome) :
    buildLineItems m products =
      Except.ok (products.map (fun pid =>
        (((lookupPrice m pid).getD ⟨0, "", ""⟩).price_id, 1))) := by
  induction products with
  | nil => rfl
  | cons a rest ih =>
    have ha : (lookupPrice m a).isSome := h a (List.mem_cons_self a rest)
    cases hlk : lookupPrice m a with
    | none => rw [hlk] at ha; simp at ha
    | some info =>
      have hrest := ih (fun q hq => h q (List.mem_cons_of_mem a hq))
      simp only [buildLineItems, hlk, hrest, List.map_cons, Option.getD_some]

theorem buildLineItems_missing (m : List (String × PriceInfo)) (products : List String)
    (q : String) (h1 : q ∈ products) (h2 : lookupPrice m q = none) :
    ∃ msg, buildLineItems m products = Except.error msg := by
  induction products with
  | nil => cases h1
  | cons a rest ih =>
    cases hlk : lookupPrice m a with
    | none => exact ⟨"Unknown product: " ++ a, by simp [buildLineItems, hlk]⟩
    | some info =>
      rcases List.mem_cons.mp h1 with he | hm
      · rw [he] at h2
        rw [h2] at hlk
        cases hlk
      · obtain ⟨msg, hmsg⟩ := ih hm
        exact ⟨msg, by simp [buildLineItems, hlk, hmsg]⟩

/-- C5: on successful checkout-session creation, `GET /checkout` responds
with a 303 redirect to the created session's url, and
`POST /create-checkout-session` responds with a JSON body whose id field
is the created session's id. -/
theorem session_id_returned
    (pid success cancel : Option String)
    (create : SessionParams → Except StripeFailure Session) (sess : Session)
    (hpid : truthy pid = true)
    (hparsed : (parsePids (pid.getD "")).isEmpty = false)
    (hc : ∀ p, create p = Except.ok sess)
    (productIds : List String) (s : CacheSystem) (now : Nat)
    (fetchO : String → PriceInfo)
    (create2 : SessionParams → Except StripeFailure Session) (sess2 : Session)
    (products : List String) (su cu : Option String)
    (hne : products.isEmpty = false)
    (hfound : ∀ q ∈ products, (lookupPrice (callResult productIds s now fetchO) q).isSome)
    (hc2 : ∀ p, create2 p = Except.ok sess2) :
    (checkoutGet true pid success cancel create).1 = .redirect 303 sess.url ∧
    (createCheckoutSession productIds s now fetchO create2 products su cu).1 =
      .created sess2.id := by
  constructor
  · unfold checkoutGet
    simp [hpid, hparsed, hc]
  · unfold createCheckoutSession
    simp [hne, buildLineItems_ok _ _ hfound, hc2]

/-- C5 witness: a two-price GET request is redirected to the created
session's url, and a one-product POST gets the created session's id. -/
theorem session_id_returned_check :
    truthy (some "price_1,price_2") = true ∧
    (parsePids "price_1,price_2").isEmpty = false ∧
    ((["p1"] : List String)).isEmpty = false ∧
    (∀ q ∈ (["p1"] : List String),
      (lookupPrice (callResult ["p1"]
        ⟨⟨some [("p1", ⟨2500, "gbp", "pr_1"⟩)], 0, none⟩, 0, 0⟩ 1
        (fun _ => ⟨0, "zzz", "zz"⟩)) q).isSome) ∧
    (checkoutGet true (some "price_1,price_2") none none
      (fun _ => .ok ⟨"sess_9", "https://pay"⟩)).1 = .redirect 303 "https://pay" ∧
    (createCheckoutSession ["p1"]
      ⟨⟨some [("p1", ⟨2500, "gbp", "pr_1"⟩)], 0, none⟩, 0, 0⟩ 1
      (fun _ => ⟨0, "zzz", "zz"⟩) (fun _ => .ok ⟨"sess_7", "https://pay2"⟩)
      ["p1"] none none).1 = .created "sess_7" := by
  have h := session_id_returned (some "price_1,price_2") none none
    (fun _ => .ok ⟨"sess_9", "https://pay"⟩) ⟨"sess_9", "https://pay"⟩
    (by decide) (by decide) (fun p => rfl)
    ["p1"] ⟨⟨some [("p1", ⟨2500, "gbp", "pr_1"⟩)], 0, none⟩, 0, 0⟩ 1
    (fun _ => ⟨0, "zzz", "zz"⟩) (fun _ => .ok ⟨"sess_7", "https://pay2"⟩)
    ⟨"sess_7", "https://pay2"⟩ ["p1"] none none
    (by decide) (by decide) (fun p => rfl)
  exact ⟨by decide, by decide, by decide, by decide, h.1, h.2⟩

/-- C6: the created session's line items are exactly the supplied
identifiers' prices in order, each with quantity 1; in
`POST /create-checkout-session` a supplied product identifier absent from
the cached price map fails the request with no session created. -/
theorem line_items_faithful
    (pid success cancel : Option String)
    (create : SessionParams → Except StripeFailure Session)
    (hpid : truthy pid = true)
    (hparsed : (parsePids (pid.getD "")).isEmpty = false)
    (productIds : List String) (s : CacheSystem) (now : Nat)
    (fetchO : String → PriceInfo)
    (create2 : SessionParams → Except StripeFailure Session)
    (products : List String) (su cu : Option String)
    (hne : products.isEmpty = false) :
    ((checkoutGet true pid success cancel create).2.map SessionParams.line_items =
      [(parsePids (pid.getD "")).map (fun q => (q, 1))]) ∧
    ((∀ q ∈ products, (lookupPrice (callResult productIds s now fetchO) q).isSome) →
      (createCheckoutSession productIds s now fetchO create2 products su cu).2.1.map
          SessionParams.line_items =
        [products.map (fun q =>
          (((lookupPrice (callResult productIds s now fetchO) q).getD
            ⟨0, "", ""⟩).price_id, 1))]) ∧
    ((∃ q ∈ products, lookupPrice (callResult productIds s now fetchO) q = none) →
      (∃ msg, (createCheckoutSession productIds s now fetchO create2 products su cu).1 =
        .err 500 msg) ∧
      (createCheckoutSession productIds s now fetchO create2 products su cu).2.1 = []) := by
  refine ⟨?_, ?_, ?_⟩
  · unfold checkoutGet
    simp only [Bool.not_true, Bool.false_eq_true, if_false, hpid, hparsed]
    cases create (checkoutGetParams (parsePids (pid.getD "")) success cancel) with
    | ok sess => rfl
    | error f =>
      obtain ⟨k, m2⟩ := f
      cases k <;> rfl
  · intro hfound
    unfold createCheckoutSession
    simp only [hne, Bool.false_eq_true, if_false]
    rw [buildLineItems_ok _ _ hfound]
    dsimp only
    cases create2 (createSessParams (products.map (fun q =>
        (((lookupPrice (callResult productIds s now fetchO) q).getD
          ⟨0, "", ""⟩).price_id, 1))) su cu) with
    | ok sess => rfl
    | error f => rfl
  · rintro ⟨q, hq, hnone⟩
    obtain ⟨msg, hmsg⟩ :=
      buildLineItems_missing (callResult productIds s now fetchO) products q hq hnone
    unfold createCheckoutSession
    simp only [hne, Bool.false_eq_true, if_false]
    rw [hmsg]
    exact ⟨⟨if msg = "" then "Checkout create failed" else msg, rfl⟩, rfl⟩

/-- C6 witness: a GET request's line items mirror the parsed price ids in
order; a POST with both products priced mirrors them in order; a POST
naming an unpriced product responds 500 and creates nothing. -/
theorem line_items_faithful_check :
    truthy (some "price_1,,price_2") = true ∧
    (parsePids "price_1,,price_2").isEmpty = false ∧
    (checkoutGet true (some "price_1,,price_2") none none
        (fun _ => .ok ⟨"sess_9", "https://pay"⟩)).2.map SessionParams.line_items =
      [[("price_1", 1), ("price_2", 1)]] ∧
    (createCheckoutSession ["p1", "p2"]
        ⟨⟨some [("p1", ⟨2500, "gbp", "pr_1"⟩), ("p2", ⟨900, "gbp", "pr_2"⟩)], 0, none⟩, 0, 0⟩
        1 (fun _ => ⟨0, "zzz", "zz"⟩) (fun _ => .ok ⟨"sess_7", "https://pay2"⟩)
        ["p2", "p1"] none none).2.1.map SessionParams.line_items =
      [[("pr_2", 1), ("pr_1", 1)]] ∧
    (∃ msg, (createCheckoutSession ["p1"]
        ⟨⟨some [("p1", ⟨2500, "gbp", "pr_1"⟩)], 0, none⟩, 0, 0⟩
        1 (fun _ => ⟨0, "zzz", "zz"⟩) (fun _ => .ok ⟨"sess_7", "https://pay2"⟩)
        ["p1", "ghost"] none none).1 = .err 500 msg) ∧
    (createCheckoutSession ["p1"]
        ⟨⟨some [("p1", ⟨2500, "gbp", "pr_1"⟩)], 0, none⟩, 0, 0⟩
        1 (fun _ => ⟨0, "zzz", "zz"⟩) (fun _ => .ok ⟨"sess_7", "https://pay2"⟩)
        ["p1", "ghost"] none none).2.1 = [] := by
  have hA := line_items_faithful (some "price_1,,price_2") none none
    (fun _ => .ok ⟨"sess_9", "https://pay"⟩) (by decide) (by decide)
    ["p1", "p2"]
    ⟨⟨some [("p1", ⟨2500, "gbp", "pr_1"⟩), ("p2", ⟨900, "gbp", "pr_2"⟩)], 0, none⟩, 0, 0⟩
    1 (fun _ => ⟨0, "zzz", "zz"⟩) (fun _ => .ok ⟨"sess_7", "https://pay2"⟩)
    ["p2", "p1"] none none (by decide)
  have hB := line_items_faithful (some "price_1,,price_2") none none
    (fun _ => .ok ⟨"sess_9", "https://pay"⟩) (by decide) (by decide)
    ["p1"] ⟨⟨some [("p1", ⟨2500, "gbp", "pr_1"⟩)], 0, none⟩, 0, 0⟩
    1 (fun _ => ⟨0, "zzz", "zz"⟩) (fun _ => .ok ⟨"sess_7", "https://pay2"⟩)
    ["p1", "ghost"] none none (by decide)
  have hBm := hB.2.2 ⟨"ghost", by decide, by decide⟩
  refine ⟨by decide, by decide, ?_, ?_, hBm.1, hBm.2⟩
  · have := hA.1
    exact this.trans (by decide)
  · have := hA.2.1 (by decide)
    exact this.trans (by decide)

/-- C7: each checkout handler validates its input before touching the SDK:
`POST /create-checkout-session` responds 400 on an empty products list,
`GET /checkout` responds 400 when pid is missing or parses to no non-empty
identifier, `POST /checkout/credit` responds 400 without email; in each
case no Stripe operation is performed. -/
theorem validation_before_sdk
    (productIds : List String) (s : CacheSystem) (now : Nat)
    (fetchO : String → PriceInfo)
    (create2 : SessionParams → Except StripeFailure Session) (su cu : Option String)
    (pid success cancel : Option String)
    (create : SessionParams → Except StripeFailure Session)
    (cfg : CreditConfig) (w : CreditWorld)
    (couponCreate : CouponParams → Except StripeFailure String)
    (promoCreate : PromoParams → Except StripeFailure String)
    (sessionCreate : SessionParams → Except StripeFailure Session)
    (body : CreditBody)
    (hpid : truthy pid = false ∨ (parsePids (pid.getD "")).isEmpty = true)
    (hemail : truthy body.email = false) :
    ((createCheckoutSession productIds s now fetchO create2 [] su cu).1 =
        .err 400 "No products selected" ∧
      (createCheckoutSession productIds s now fetchO create2 [] su cu).2.1 = [] ∧
      (createCheckoutSession productIds s now fetchO create2 [] su cu).2.2 = s) ∧
    ((∃ msg, (checkoutGet true pid success cancel create).1 = .err 400 msg) ∧
      (checkoutGet true pid success cancel create).2 = []) ∧
    ((checkoutCredit cfg w couponCreate promoCreate sessionCreate body).1 =
        .err 400 "Email is required" ∧
      (checkoutCredit cfg w couponCreate promoCreate sessionCreate body).2.ops = []) := by
  refine ⟨⟨rfl, rfl, rfl⟩, ?_, ?_⟩
  · rcases hpid with hf | he
    · unfold checkoutGet
      rw [hf]
      exact ⟨⟨"Missing price ID parameter", rfl⟩, rfl⟩
    · unfold checkoutGet
      by_cases ht : truthy pid = true
      · rw [ht]
        simp only [Bool.not_true, Bool.false_eq_true, if_false, he, if_true]
        exact ⟨⟨"No valid price IDs provided", rfl⟩, trivial⟩
      · rw [Bool.not_eq_true] at ht
        rw [ht]
        exact ⟨⟨"Missing price ID parameter", rfl⟩, rfl⟩
  · unfold checkoutCredit
    rw [hemail]
    exact ⟨rfl, rfl⟩

/-- C7 witness: an empty POST body, a GET without pid, and a credit request
without email each get a 400 with no SDK call. -/
theorem validation_before_sdk_check :
    truthy (none : Option String) = false ∧
    (createCheckoutSession ["p1"] initCache 0 (fun _ => ⟨0, "zzz", "zz"⟩)
        (fun _ => .ok ⟨"sess_7", "https://pay2"⟩) [] none none).1 =
      .err 400 "No products selected" ∧
    (checkoutGet true none none none (fun _ => .ok ⟨"sess_9", "https://pay"⟩)).2 = [] ∧
    (checkoutCredit ⟨true, some "price_bundle", ["prod_a"], "https://s", "https://c"⟩
        ⟨["cus_1"], "cus_new", []⟩ (fun _ => .ok "coup_1") (fun _ => .ok "promo_1")
        (fun _ => .ok ⟨"sess_1", "https://u"⟩) ⟨none, none⟩).1 =
      .err 400 "Email is required" := by
  have h := validation_before_sdk ["p1"] initCache 0 (fun _ => ⟨0, "zzz", "zz"⟩)
    (fun _ => .ok ⟨"sess_7", "https://pay2"⟩) none none
    none none none (fun _ => .ok ⟨"sess_9", "https://pay"⟩)
    ⟨true, some "price_bundle", ["prod_a"], "https://s", "https://c"⟩
    ⟨["cus_1"], "cus_new", []⟩ (fun _ => .ok "coup_1") (fun _ => .ok "promo_1")
    (fun _ => .ok ⟨"sess_1", "https://u"⟩) ⟨none, none⟩
    (Or.inl (by decide)) (by decide)
  exact ⟨by decide, h.1.1, h.2.1.2, h.2.2.1⟩

/-! ### `getActivePriceForProduct` and the uncached `GET /prices`
(server.js lines 58-80 and 109-126)

The two SDK calls the helper makes are an oracle; a rejected promise is an
`Except.error` carrying the error message the catch block reads. -/

structure PriceRec where
  unit_amount : Int
  currency : String
  id : String
deriving DecidableEq, Repr

structure PricesOracle where
  listPrices : String → Except String (List PriceRec)
  retrieveProduct : String → Except String Unit

inductive PriceResult where
  | ok (info : PriceInfo)
  | err (message : String)
deriving DecidableEq, Repr

/-- `err?.raw?.message || err?.message || "Stripe error (...)"`: a falsy
(empty) rejection message falls back to the default text. -/
def stripeErrMsg (msg : String) : String :=
  if msg = "" then "Stripe error (check key/account/test-vs-live/product IDs)" else msg

/-- `getActivePriceForProduct`: first active price if any, else a
product-existence check for a better error, with every rejection caught. -/
def getActivePriceForProduct (o : PricesOracle) (productId : String) : PriceResult :=
  match o.listPrices productId with
  | .error msg => .err (stripeErrMsg msg)
  | .ok (p :: _) =>
    .ok { unit_amount := p.unit_amount, currency := p.currency, price_id := p.id }
  | .ok [] =>
    match o.retrieveProduct productId with
    | .ok _ => .err "No active prices found for this product"
    | .error msg => .err (stripeErrMsg msg)

inductive PricesResp where
  | err (status : Nat) (msg : String)
  | ok (body : List (String × PriceResult))
deriving DecidableEq, Repr

/-- The uncached `GET /prices` handler: graceful empty map without
configured product ids, else one entry per configured product id. -/
def pricesGet (stripeConfigured : Bool) (productIds : List String) (o : PricesOracle) :
    PricesResp :=
  if !stripeConfigured then .err 500 "Server missing STRIPE_SECRET_KEY"
  else if productIds.isEmpty then .ok []
  else .ok (productIds.map (fun pid => (pid, getActivePriceForProduct o pid)))

theorem keys_of_keyed_map {β : Type} (l : List String) (f : String → β) :
    (l.map (fun a => (a, f a))).map Prod.fst = l := by
  induction l with
  | nil => rfl
  | cons a rest ih =>
    simp only [List.map_cons] at ih ⊢
    rw [ih]

/-- C10: `getActivePriceForProduct` is total over upstream outcomes,
returning a price record or an error object and never throwing, so the
uncached `GET /prices` always responds with a map carrying an entry for
every configured product identifier even when upstream lookups fail, and
with the empty map when no product identifiers are configured. -/
theorem prices_always_answer (o : PricesOracle) (productIds : List String) (pid : String) :
    ((∃ info, getActivePriceForProduct o pid = .ok info) ∨
      (∃ msg, getActivePriceForProduct o pid = .err msg)) ∧
    (productIds ≠ [] →
      ∃ body, pricesGet true productIds o = .ok body ∧ body.map Prod.fst = productIds) ∧
    (productIds = [] → pricesGet true productIds o = .ok []) := by
  refine ⟨?_, ?_, ?_⟩
  · unfold getActivePriceForProduct
    cases o.listPrices pid with
    | error msg => exact Or.inr ⟨stripeErrMsg msg, rfl⟩
    | ok l =>
      cases l with
      | cons p rest => exact Or.inl ⟨_, rfl⟩
      | nil =>
        cases o.retrieveProduct pid with
        | ok u => exact Or.inr ⟨_, rfl⟩
        | error msg => exact Or.inr ⟨stripeErrMsg msg, rfl⟩
  · intro hne
    have hemp : productIds.isEmpty = false := by
      cases hc : productIds with
      | nil => exact absurd hc hne
      | cons a l => rfl
    unfold pricesGet
    simp only [Bool.not_true, Bool.false_eq_true, if_false, hemp]
    exact ⟨_, rfl, keys_of_keyed_map productIds (getActivePriceForProduct o)⟩
  · intro h
    subst h
    rfl

/-- C10 witness: with one priced product, one product without prices and
one failing lookup, the handler answers for all three keys; with no
configured products it answers the empty map. -/
theorem prices_always_answer_check :
    (["p1", "p2", "p3"] : List String) ≠ [] ∧
    (∃ body, pricesGet true ["p1", "p2", "p3"]
        ⟨fun pid => if pid = "p1" then .ok [⟨2500, "gbp", "pr_1"⟩]
                    else if pid = "p2" then .ok [] else .error "boom",
         fun pid => if pid = "p2" then .ok () else .error "gone"⟩ = .ok body ∧
      body.map Prod.fst = ["p1", "p2", "p3"]) ∧
    pricesGet true []
        ⟨fun pid => if pid = "p1" then .ok [⟨2500, "gbp", "pr_1"⟩]
                    else if pid = "p2" then .ok [] else .error "boom",
         fun pid => if pid = "p2" then .ok () else .error "gone"⟩ = .ok [] :=
  ⟨by decide,
    (prices_always_answer
      ⟨fun pid => if pid = "p1" then .ok [⟨2500, "gbp", "pr_1"⟩]
                  else if pid = "p2" then .ok [] else .error "boom",
       fun pid => if pid = "p2" then .ok () else .error "gone"⟩
      ["p1", "p2", "p3"] "p1").2.1 (by decide),
    (prices_always_answer
      ⟨fun pid => if pid = "p1" then .ok [⟨2500, "gbp", "pr_1"⟩]
                  else if pid = "p2" then .ok [] else .error "boom",
       fun pid => if pid = "p2" then .ok () else .error "gone"⟩
      [] "p1").2.2 rfl⟩

end GolfJobs
